import Mathlib

/-!
# TriangleProgram (src/triangle/main.cpp)

A shallow embedding of the Vulkan bootstrap program.  Every call the program
makes to GLFW, Vulkan or the C library is recorded as an `Event`; the answers
of those libraries are the fields of `Environment`.  A member function of
`TriangleProgram` becomes a function of the object's constant fields and the
environment, yielding the events it performs together with its result.
-/

namespace Triangle

/-! ## Constants of the external headers -/

/-- Value of the Vulkan header macro of the same name. -/
def VK_EXT_DEBUG_UTILS_EXTENSION_NAME : String := "VK_EXT_debug_utils"

/-- The `VkResult` success code. -/
def VK_SUCCESS : Int := 0

/-- Value of `VK_STRUCTURE_TYPE_APPLICATION_INFO`. -/
def VK_STRUCTURE_TYPE_APPLICATION_INFO : Nat := 0

/-- Value of `VK_STRUCTURE_TYPE_INSTANCE_CREATE_INFO`. -/
def VK_STRUCTURE_TYPE_INSTANCE_CREATE_INFO : Nat := 1

/-- The packing done by `VK_MAKE_VERSION( major, minor, patch )`, a 32 bit value. -/
def VK_MAKE_VERSION (major minor patch : Nat) : Nat :=
  ((major <<< 22) ||| (minor <<< 12) ||| patch) % 2 ^ 32

/-- Value of `VK_API_VERSION_1_0`. -/
def VK_API_VERSION_1_0 : Nat := VK_MAKE_VERSION 1 0 0

/-- Value of `GLFW_CLIENT_API` (0x00022001). -/
def GLFW_CLIENT_API : Int := 139265

/-- Value of `GLFW_NO_API`. -/
def GLFW_NO_API : Int := 0

/-- Value of `GLFW_RESIZABLE` (0x00020003). -/
def GLFW_RESIZABLE : Int := 131075

/-- Value of `GLFW_FALSE`. -/
def GLFW_FALSE : Int := 0

/-- Value of `EXIT_SUCCESS` in `<cstdlib>`. -/
def EXIT_SUCCESS : Int := 0

/-- Value of `EXIT_FAILURE` in `<cstdlib>`. -/
def EXIT_FAILURE : Int := 1

/-- Arithmetic on `size_t` wraps at `2 ^ 64`. -/
def SIZE_T_MOD : Nat := 2 ^ 64

/-- Arithmetic on `uint32_t` wraps at `2 ^ 32`. -/
def UINT32_MOD : Nat := 2 ^ 32

/-! ## Data -/

/-- The field of `VkLayerProperties` the program reads. -/
structure VkLayerProperties where
  layerName : String
  deriving DecidableEq, Repr

/-- The field of `VkExtensionProperties` the program reads. -/
structure VkExtensionProperties where
  extensionName : String
  deriving DecidableEq, Repr

/-- The fields of `VkApplicationInfo` assigned in `CreateVulkanInstance`. -/
structure VkApplicationInfo where
  sType : Nat
  pApplicationName : String
  applicationVersion : Nat
  pEngineName : String
  engineVersion : Nat
  apiVersion : Nat
  deriving DecidableEq, Repr

/-- The fields of `VkInstanceCreateInfo` assigned in `CreateVulkanInstance`.
A `pp...Names` pointer is the array it points to (`[]` for the null pointer of
the zero-filled struct). -/
structure VkInstanceCreateInfo where
  sType : Nat
  pApplicationInfo : VkApplicationInfo
  enabledLayerCount : Nat
  ppEnabledLayerNames : List String
  enabledExtensionCount : Nat
  ppEnabledExtensionNames : List String
  deriving DecidableEq, Repr

/-- The layer names the backend reads from a descriptor: the first
`enabledLayerCount` entries of the array. -/
def VkInstanceCreateInfo.enabledLayerNames (ci : VkInstanceCreateInfo) : List String :=
  ci.ppEnabledLayerNames.take ci.enabledLayerCount

/-- The extension names the backend reads from a descriptor: the first
`enabledExtensionCount` entries of the array. -/
def VkInstanceCreateInfo.enabledExtensionNames (ci : VkInstanceCreateInfo) : List String :=
  ci.ppEnabledExtensionNames.take ci.enabledExtensionCount

/-- One call of the program into GLFW, Vulkan or the C library, with the
arguments that matter (a `GLFWwindow*` is `none` when null). -/
inductive Event where
  | glfwInit
  | glfwWindowHint (hint value : Int)
  | glfwCreateWindow (width height : Int) (title : String)
  | vkEnumerateInstanceLayerProperties
  | vkEnumerateInstanceExtensionProperties
  | glfwGetRequiredInstanceExtensions
  | printf (format : String) (arg : String)
  | vkCreateInstance (createInfo : VkInstanceCreateInfo)
  | glfwWindowShouldClose (window : Option Nat) (answer : Bool)
  | glfwPollEvents
  | vkDestroyInstance (instance_ : Nat)
  | glfwDestroyWindow (window : Option Nat)
  | glfwTerminate
  | fprintf_stderr (format : String) (arg : String)
  deriving DecidableEq, Repr

/-- What the libraries answer during one run of the program. -/
structure Environment where
  /-- Return value of `glfwInit` (`GLFW_FALSE` on failure). -/
  glfwInitResult : Int
  /-- Return value of `glfwCreateWindow`, `none` for a null pointer. -/
  glfwCreateWindowResult : Option Nat
  /-- Contents of `availableLayers` after the two enumeration calls. -/
  availableLayers : List VkLayerProperties
  /-- Contents of `availableExtensions` after the two enumeration calls. -/
  availableExtensions : List VkExtensionProperties
  /-- The array `glfwGetRequiredInstanceExtensions` returns
  (`glfwExtensionCount` entries). -/
  glfwExtensions : List String
  /-- Return value of `vkCreateInstance`. -/
  vkCreateInstanceResult : Int
  /-- The handle `vkCreateInstance` stores on success. -/
  vkInstance : Nat
  /-- Successive answers of `glfwWindowShouldClose`. -/
  windowShouldClose : List Bool
  deriving Repr

/-- The constant data members of `class TriangleProgram`. -/
structure TriangleProgram where
  m_windowWidth : Int := 800
  m_windowHeight : Int := 600
  m_windowTitle : String := "Triangle"
  m_enableValidationLayers : Bool := true
  m_validationLayers : List String := ["VK_LAYER_KHRONOS_validation"]
  deriving Repr

/-- A function either returns a value or throws `std::runtime_error( what )`. -/
inductive Result (α : Type) where
  | ok (value : α)
  | throw (what : String)
  deriving DecidableEq, Repr

/-- How far `Run` got: it returned, it threw, or `MainLoop` is still
iterating after all the recorded close answers. -/
inductive RunStatus where
  | returned
  | threw (what : String)
  | looping
  deriving DecidableEq, Repr

/-! ## Member functions -/

/-- Events of `InitWindow` and the value stored in `m_window`.
The result of `glfwInit` is not read, and `m_window` is not compared with null. -/
def InitWindow (self : TriangleProgram) (env : Environment) : List Event × Option Nat :=
  ([Event.glfwInit,
    Event.glfwWindowHint GLFW_CLIENT_API GLFW_NO_API,
    Event.glfwWindowHint GLFW_RESIZABLE GLFW_FALSE,
    Event.glfwCreateWindow self.m_windowWidth self.m_windowHeight self.m_windowTitle],
   env.glfwCreateWindowResult)

/-- The `std::unordered_set< std::string >` built by inserting every name:
`insert` leaves the set unchanged when the name is already in it. -/
def insertAll (names : List String) : List String :=
  names.foldl (fun set name => if name ∈ set then set else name :: set) []

/-- The range-for loop shared, up to its two format strings, by
`CheckVulkanLayersSupport` and `CheckVulkanExtensionsSupport`: it prints one
line per requested name and counts the missing ones in a `size_t`. -/
def scanRequested (foundFormat missingFormat : String) (availableSet : List String) :
    List String → Nat → List Event × Nat
  | [], missingCount => ([], missingCount)
  | name :: rest, missingCount =>
    if name ∈ availableSet then
      let r := scanRequested foundFormat missingFormat availableSet rest missingCount
      (Event.printf foundFormat name :: r.1, r.2)
    else
      let r := scanRequested foundFormat missingFormat availableSet rest
        ((missingCount + 1) % SIZE_T_MOD)
      (Event.printf missingFormat name :: r.1, r.2)

/-- Format of the line printed for a layer that is available. -/
def foundLayerFormat : String := "Found requested Vulkan layer: %s.\n"

/-- Format of the line printed for a layer that is not available. -/
def missingLayerFormat : String := "Missing requested Vulkan layer: %s.\n"

/-- Format of the line printed for an extension that is available. -/
def foundExtensionFormat : String := "Found requested Vulkan extension: %s.\n"

/-- Format of the line printed for an extension that is not available. -/
def missingExtensionFormat : String := "Missing requested Vulkan extension: %s.\n"

/-- Embedding of `CheckVulkanLayersSupport`: the two enumeration calls, the
set of available names, the scan, and `missingLayersCount == 0`. -/
def CheckVulkanLayersSupport (availableLayers : List VkLayerProperties)
    (i_requestedLayers : List String) : List Event × Bool :=
  let availableLayersSet := insertAll (availableLayers.map (fun layer => layer.layerName))
  let r := scanRequested foundLayerFormat missingLayerFormat availableLayersSet
    i_requestedLayers 0
  (Event.vkEnumerateInstanceLayerProperties :: Event.vkEnumerateInstanceLayerProperties :: r.1,
   r.2 == 0)

/-- Embedding of `CheckVulkanExtensionsSupport`. -/
def CheckVulkanExtensionsSupport (availableExtensions : List VkExtensionProperties)
    (i_requestedExtensions : List String) : List Event × Bool :=
  let availableExtensionsSet :=
    insertAll (availableExtensions.map (fun extension => extension.extensionName))
  let r := scanRequested foundExtensionFormat missingExtensionFormat availableExtensionsSet
    i_requestedExtensions 0
  (Event.vkEnumerateInstanceExtensionProperties ::
    Event.vkEnumerateInstanceExtensionProperties :: r.1,
   r.2 == 0)

/-- Embedding of `GetRequiredExtensions`: the GLFW array copied into a vector,
with the debug-utilities name pushed back when validation is enabled. -/
def GetRequiredExtensions (self : TriangleProgram) (glfwExtensions : List String) :
    List Event × List String :=
  let extensions := glfwExtensions
  ([Event.glfwGetRequiredInstanceExtensions],
   if self.m_enableValidationLayers then extensions ++ [VK_EXT_DEBUG_UTILS_EXTENSION_NAME]
   else extensions)

/-- The `appInfo` local of `CreateVulkanInstance`. -/
def appInfo : VkApplicationInfo :=
  { sType := VK_STRUCTURE_TYPE_APPLICATION_INFO
    pApplicationName := "Hello Triangle"
    applicationVersion := VK_MAKE_VERSION 1 0 0
    pEngineName := "No Engine"
    engineVersion := VK_MAKE_VERSION 1 0 0
    apiVersion := VK_API_VERSION_1_0 }

/-- The `createInfo` local of `CreateVulkanInstance` once all its fields are
assigned; the two counts are `uint32_t`. -/
def createInfo (self : TriangleProgram) (extensions : List String) : VkInstanceCreateInfo :=
  { sType := VK_STRUCTURE_TYPE_INSTANCE_CREATE_INFO
    pApplicationInfo := appInfo
    enabledLayerCount :=
      if self.m_enableValidationLayers then self.m_validationLayers.length % UINT32_MOD else 0
    ppEnabledLayerNames :=
      if self.m_enableValidationLayers then self.m_validationLayers else []
    enabledExtensionCount := extensions.length % UINT32_MOD
    ppEnabledExtensionNames := extensions }

/-- Embedding of `CreateVulkanInstance`; the value returned on success is what
is stored in `m_vulkanInstance`.  The layer check is only called when
validation is enabled (`&&` does not evaluate its right operand otherwise). -/
def CreateVulkanInstance (self : TriangleProgram) (env : Environment) :
    List Event × Result Nat :=
  let layers : List Event × Bool :=
    if self.m_enableValidationLayers then
      CheckVulkanLayersSupport env.availableLayers self.m_validationLayers
    else ([], true)
  if self.m_enableValidationLayers && !layers.2 then
    (layers.1, Result.throw "Missing vulkan layers, abort!")
  else
    let extensions := GetRequiredExtensions self env.glfwExtensions
    let check := CheckVulkanExtensionsSupport env.availableExtensions extensions.2
    if !check.2 then
      (layers.1 ++ extensions.1 ++ check.1, Result.throw "Missing vulkan extensions, abort!")
    else
      let events := layers.1 ++ extensions.1 ++ check.1 ++
        [Event.vkCreateInstance (createInfo self extensions.2)]
      if env.vkCreateInstanceResult != VK_SUCCESS then
        (events, Result.throw "Failed to create vulkan instance.")
      else
        (events, Result.ok env.vkInstance)

/-- Embedding of `InitVulkan`. -/
def InitVulkan (self : TriangleProgram) (env : Environment) : List Event × Result Nat :=
  CreateVulkanInstance self env

/-- Embedding of `MainLoop` over the successive answers of
`glfwWindowShouldClose`: the condition is evaluated, and the body polls when
the answer was false.  The flag is `true` when the loop was left, `false` when
the recorded answers ran out with the loop still iterating. -/
def MainLoop (m_window : Option Nat) : List Bool → List Event × Bool
  | [] => ([], false)
  | true :: _ => ([Event.glfwWindowShouldClose m_window true], true)
  | false :: rest =>
    let r := MainLoop m_window rest
    (Event.glfwWindowShouldClose m_window false :: Event.glfwPollEvents :: r.1, r.2)

/-- Embedding of `Teardown`. -/
def Teardown (m_window : Option Nat) (m_vulkanInstance : Nat) : List Event :=
  [Event.vkDestroyInstance m_vulkanInstance,
   Event.glfwDestroyWindow m_window,
   Event.glfwTerminate]

/-- Embedding of `Run`: the four stages in sequence; an exception thrown by
`InitVulkan` leaves `Run` at once (there is no handler in the class). -/
def Run (self : TriangleProgram) (env : Environment) : List Event × RunStatus :=
  let window := InitWindow self env
  let vulkan := InitVulkan self env
  match vulkan.2 with
  | Result.throw what => (window.1 ++ vulkan.1, RunStatus.threw what)
  | Result.ok m_vulkanInstance =>
    let loop := MainLoop window.2 env.windowShouldClose
    if loop.2 then
      (window.1 ++ vulkan.1 ++ loop.1 ++ Teardown window.2 m_vulkanInstance,
       RunStatus.returned)
    else
      (window.1 ++ vulkan.1 ++ loop.1, RunStatus.looping)

/-- Embedding of `main`: the events of the process and its exit code (`none`
while the event loop has not been left). -/
def main (self : TriangleProgram) (env : Environment) : List Event × Option Int :=
  let run := Run self env
  match run.2 with
  | RunStatus.returned => (run.1, some EXIT_SUCCESS)
  | RunStatus.threw what =>
    (run.1 ++ [Event.fprintf_stderr "Error during runtime: %s.\n" what], some EXIT_FAILURE)
  | RunStatus.looping => (run.1, none)

/-! ## Observations on event sequences -/

/-- The names printed with the given format. -/
def printedWith (format : String) : List Event → List String
  | [] => []
  | Event.printf f arg :: rest =>
    if f = format then arg :: printedWith format rest else printedWith format rest
  | _ :: rest => printedWith format rest

/-- Whether an event is a `vkCreateInstance` call. -/
def isCreateInstance : Event → Bool
  | Event.vkCreateInstance _ => true
  | _ => false

/-- Whether an event is a `vkDestroyInstance` call. -/
def isDestroyInstance : Event → Bool
  | Event.vkDestroyInstance _ => true
  | _ => false

/-- Whether an event is a `glfwDestroyWindow` call. -/
def isDestroyWindow : Event → Bool
  | Event.glfwDestroyWindow _ => true
  | _ => false

/-- Whether an event is one of the two backend capability queries. -/
def isCapabilityQuery : Event → Bool
  | Event.vkEnumerateInstanceLayerProperties => true
  | Event.vkEnumerateInstanceExtensionProperties => true
  | _ => false

/-- The requested names that are not in the set, in request order. -/
def missingFrom (availableSet requested : List String) : List String :=
  requested.filter (fun name => decide (name ∉ availableSet))

/-- Whether an event belongs to capability negotiation: a backend query, the
GLFW extension request, or a line printed by a check. -/
def isNegotiation : Event → Bool
  | Event.vkEnumerateInstanceLayerProperties => true
  | Event.vkEnumerateInstanceExtensionProperties => true
  | Event.glfwGetRequiredInstanceExtensions => true
  | Event.printf _ _ => true
  | _ => false

/-- Whether an event is a call made by `MainLoop`. -/
def isLoopEvent : Event → Bool
  | Event.glfwWindowShouldClose _ _ => true
  | Event.glfwPollEvents => true
  | _ => false

/-- Whether an event is a `glfwPollEvents` call. -/
def isPoll : Event → Bool
  | Event.glfwPollEvents => true
  | _ => false

/-- Events of the layer stage of `CreateVulkanInstance`. -/
def layerEvents (self : TriangleProgram) (env : Environment) : List Event :=
  if self.m_enableValidationLayers then
    (CheckVulkanLayersSupport env.availableLayers self.m_validationLayers).1
  else []

/-- Whether the layer stage of `CreateVulkanInstance` lets the function go on. -/
def layersPassed (self : TriangleProgram) (env : Environment) : Bool :=
  !self.m_enableValidationLayers ||
    (CheckVulkanLayersSupport env.availableLayers self.m_validationLayers).2

/-- The extension list `CreateVulkanInstance` builds. -/
def builtExtensions (self : TriangleProgram) (env : Environment) : List String :=
  (GetRequiredExtensions self env.glfwExtensions).2

/-- Events of the extension stage of `CreateVulkanInstance`. -/
def extensionEvents (self : TriangleProgram) (env : Environment) : List Event :=
  (GetRequiredExtensions self env.glfwExtensions).1 ++
    (CheckVulkanExtensionsSupport env.availableExtensions (builtExtensions self env)).1

/-- Whether the extension check of `CreateVulkanInstance` succeeds. -/
def extensionsPassed (self : TriangleProgram) (env : Environment) : Bool :=
  (CheckVulkanExtensionsSupport env.availableExtensions (builtExtensions self env)).2

/-- The sizes a `std::vector` and a `uint32_t` count can have: the layer list
has fewer than `2 ^ 64` entries and GLFW reports fewer than `2 ^ 32` names. -/
def WellSized (self : TriangleProgram) (env : Environment) : Prop :=
  self.m_validationLayers.length < SIZE_T_MOD ∧ env.glfwExtensions.length < UINT32_MOD

instance (self : TriangleProgram) (env : Environment) : Decidable (WellSized self env) :=
  inferInstanceAs (Decidable (_ ∧ _))

/-- Whether an event is a `glfwTerminate` call. -/
def isTerminate : Event → Bool
  | Event.glfwTerminate => true
  | _ => false

/-- Whether an event acquires or releases the window, the instance or the
windowing subsystem. -/
def isResourceOp : Event → Bool
  | Event.glfwCreateWindow _ _ _ => true
  | Event.vkCreateInstance _ => true
  | Event.vkDestroyInstance _ => true
  | Event.glfwDestroyWindow _ => true
  | Event.glfwTerminate => true
  | _ => false

/-- Number of close answers before the first `true` one. -/
def firstTrue (answers : List Bool) : Nat :=
  (answers.takeWhile (fun answer => !answer)).length

/-- The events of `k` iterations that found the window open, followed by the
check that finds it closed. -/
def loopEvents (m_window : Option Nat) (k : Nat) : List Event :=
  (List.replicate k
    [Event.glfwWindowShouldClose m_window false, Event.glfwPollEvents]).flatten ++
  [Event.glfwWindowShouldClose m_window true]

/-- Whether an event is the layer enumeration query. -/
def isLayerQuery : Event → Bool
  | Event.vkEnumerateInstanceLayerProperties => true
  | _ => false

/-- The names of the available layers. -/
def layerNames (availableLayers : List VkLayerProperties) : List String :=
  availableLayers.map (fun layer => layer.layerName)

/-- The names of the available extensions. -/
def extensionNames (availableExtensions : List VkExtensionProperties) : List String :=
  availableExtensions.map (fun extension => extension.extensionName)

/-- An environment in which every layer and extension is available, instance
creation succeeds and the window is closed after two polls. -/
def sampleEnv : Environment :=
  { glfwInitResult := 1
    glfwCreateWindowResult := some 7
    availableLayers := [⟨"VK_LAYER_KHRONOS_validation"⟩]
    availableExtensions := [⟨"VK_KHR_surface"⟩, ⟨"VK_EXT_debug_utils"⟩]
    glfwExtensions := ["VK_KHR_surface"]
    vkCreateInstanceResult := 0
    vkInstance := 42
    windowShouldClose := [false, false, true] }

/-- An environment in which the window opens but the backend reports no layer. -/
def envMissingLayer : Environment :=
  { glfwInitResult := 1
    glfwCreateWindowResult := some 7
    availableLayers := []
    availableExtensions := [⟨"VK_KHR_surface"⟩, ⟨"VK_EXT_debug_utils"⟩]
    glfwExtensions := ["VK_KHR_surface"]
    vkCreateInstanceResult := 0
    vkInstance := 42
    windowShouldClose := [true] }

/-- An environment in which `glfwInit` fails and `glfwCreateWindow` returns
null, while the backend offers everything and creates the instance; no close
answer is recorded. -/
def envNoWindow : Environment :=
  { glfwInitResult := 0
    glfwCreateWindowResult := none
    availableLayers := [⟨"VK_LAYER_KHRONOS_validation"⟩]
    availableExtensions := [⟨"VK_EXT_debug_utils"⟩]
    glfwExtensions := []
    vkCreateInstanceResult := 0
    vkInstance := 42
    windowShouldClose := [] }

/-- An environment in which the backend rejects instance creation. -/
def envCreateFails : Environment :=
  { glfwInitResult := 1
    glfwCreateWindowResult := some 7
    availableLayers := [⟨"VK_LAYER_KHRONOS_validation"⟩]
    availableExtensions := [⟨"VK_KHR_surface"⟩, ⟨"VK_EXT_debug_utils"⟩]
    glfwExtensions := ["VK_KHR_surface"]
    vkCreateInstanceResult := -1
    vkInstance := 42
    windowShouldClose := [true] }

/-! ## Lemmas on the capability checks -/

theorem mem_foldl_insert (names : List String) (x : String) :
    ∀ set : List String,
      x ∈ names.foldl (fun set name => if name ∈ set then set else name :: set) set ↔
        x ∈ set ∨ x ∈ names := by
  induction names with
  | nil => intro set; simp
  | cons name rest ih =>
    intro set
    rw [List.foldl_cons, ih]
    by_cases hmem : name ∈ set
    · rw [if_pos hmem, List.mem_cons]
      constructor
      · rintro (h | h)
        · exact Or.inl h
        · exact Or.inr (Or.inr h)
      · rintro (h | h | h)
        · exact Or.inl h
        · exact Or.inl (h ▸ hmem)
        · exact Or.inr h
    · rw [if_neg hmem, List.mem_cons, List.mem_cons]
      constructor
      · rintro ((h | h) | h)
        · exact Or.inr (Or.inl h)
        · exact Or.inl h
        · exact Or.inr (Or.inr h)
      · rintro (h | h | h)
        · exact Or.inl (Or.inr h)
        · exact Or.inl (Or.inl h)
        · exact Or.inr h

theorem mem_insertAll (names : List String) (x : String) : x ∈ insertAll names ↔ x ∈ names := by
  unfold insertAll
  rw [mem_foldl_insert]
  simp

theorem missingFrom_eq_nil (availableSet requested : List String) :
    missingFrom availableSet requested = [] ↔ ∀ name ∈ requested, name ∈ availableSet := by
  unfold missingFrom
  rw [List.filter_eq_nil_iff]
  constructor
  · intro h name hn
    by_contra hc
    exact h name hn (by simpa using hc)
  · intro h name hn
    simpa using h name hn

theorem missingFrom_congr (s t requested : List String) (h : ∀ x, x ∈ s ↔ x ∈ t) :
    missingFrom s requested = missingFrom t requested := by
  unfold missingFrom
  apply List.filter_congr
  intro x _
  simp [h x]

theorem scanRequested_count (ff mf : String) (availableSet : List String) :
    ∀ (requested : List String) (c : Nat), c < SIZE_T_MOD →
      (scanRequested ff mf availableSet requested c).2 =
        (c + (missingFrom availableSet requested).length) % SIZE_T_MOD := by
  intro requested
  induction requested with
  | nil =>
    intro c hc
    simp [scanRequested, missingFrom, Nat.mod_eq_of_lt hc]
  | cons name rest ih =>
    intro c hc
    have hpos : 0 < SIZE_T_MOD := by decide
    by_cases hmem : name ∈ availableSet
    · have hm : missingFrom availableSet (name :: rest) = missingFrom availableSet rest := by
        simp [missingFrom, hmem]
      rw [hm]
      simp only [scanRequested, if_pos hmem]
      exact ih c hc
    · have hm : missingFrom availableSet (name :: rest) =
          name :: missingFrom availableSet rest := by
        simp [missingFrom, hmem]
      rw [hm]
      simp only [scanRequested, if_neg hmem]
      rw [ih _ (Nat.mod_lt _ hpos), List.length_cons, Nat.mod_add_mod]
      congr 1
      omega

theorem scanRequested_printed (ff mf : String) (hne : ff ≠ mf) (availableSet : List String) :
    ∀ (requested : List String) (c : Nat),
      printedWith mf (scanRequested ff mf availableSet requested c).1 =
        missingFrom availableSet requested := by
  intro requested
  induction requested with
  | nil => intro c; simp [scanRequested, missingFrom, printedWith]
  | cons name rest ih =>
    intro c
    by_cases hmem : name ∈ availableSet
    · have hm : missingFrom availableSet (name :: rest) = missingFrom availableSet rest := by
        simp [missingFrom, hmem]
      rw [hm]
      simp only [scanRequested, if_pos hmem, printedWith, if_neg hne]
      exact ih c
    · have hm : missingFrom availableSet (name :: rest) =
          name :: missingFrom availableSet rest := by
        simp [missingFrom, hmem]
      rw [hm]
      simp only [scanRequested, if_neg hmem, printedWith, if_true]
      rw [ih]

theorem missingFrom_length_le (availableSet requested : List String) :
    (missingFrom availableSet requested).length ≤ requested.length :=
  List.length_filter_le _ _

theorem scanRequested_zero_iff (ff mf : String) (availableSet requested : List String)
    (h : requested.length < SIZE_T_MOD) :
    (scanRequested ff mf availableSet requested 0).2 = 0 ↔
      ∀ name ∈ requested, name ∈ availableSet := by
  rw [scanRequested_count ff mf availableSet requested 0 (by decide), Nat.zero_add,
    Nat.mod_eq_of_lt (lt_of_le_of_lt (missingFrom_length_le _ _) h),
    ← missingFrom_eq_nil, List.length_eq_zero]

theorem layers_check_iff (availableLayers : List VkLayerProperties) (requested : List String)
    (h : requested.length < SIZE_T_MOD) :
    (CheckVulkanLayersSupport availableLayers requested).2 = true ↔
      ∀ name ∈ requested, name ∈ layerNames availableLayers := by
  simp only [CheckVulkanLayersSupport, beq_iff_eq, layerNames]
  rw [scanRequested_zero_iff _ _ _ _ h]
  simp only [mem_insertAll]

theorem extensions_check_iff (availableExtensions : List VkExtensionProperties)
    (requested : List String) (h : requested.length < SIZE_T_MOD) :
    (CheckVulkanExtensionsSupport availableExtensions requested).2 = true ↔
      ∀ name ∈ requested, name ∈ extensionNames availableExtensions := by
  simp only [CheckVulkanExtensionsSupport, beq_iff_eq, extensionNames]
  rw [scanRequested_zero_iff _ _ _ _ h]
  simp only [mem_insertAll]

theorem layers_check_printed (availableLayers : List VkLayerProperties)
    (requested : List String) :
    printedWith missingLayerFormat (CheckVulkanLayersSupport availableLayers requested).1 =
      missingFrom (layerNames availableLayers) requested := by
  simp only [CheckVulkanLayersSupport, printedWith, layerNames]
  rw [scanRequested_printed _ _ (by decide)]
  exact missingFrom_congr _ _ _ (mem_insertAll _)

theorem extensions_check_printed (availableExtensions : List VkExtensionProperties)
    (requested : List String) :
    printedWith missingExtensionFormat
        (CheckVulkanExtensionsSupport availableExtensions requested).1 =
      missingFrom (extensionNames availableExtensions) requested := by
  simp only [CheckVulkanExtensionsSupport, printedWith, extensionNames]
  rw [scanRequested_printed _ _ (by decide)]
  exact missingFrom_congr _ _ _ (mem_insertAll _)

/-! ## Lemmas on the stages of `Run` -/

theorem scanRequested_negotiation (ff mf : String) (availableSet : List String) :
    ∀ (requested : List String) (c : Nat),
      ∀ e ∈ (scanRequested ff mf availableSet requested c).1, isNegotiation e = true := by
  intro requested
  induction requested with
  | nil => intro c e he; simp [scanRequested] at he
  | cons name rest ih =>
    intro c e he
    by_cases hmem : name ∈ availableSet
    · simp only [scanRequested, if_pos hmem, List.mem_cons] at he
      rcases he with rfl | he
      · rfl
      · exact ih _ e he
    · simp only [scanRequested, if_neg hmem, List.mem_cons] at he
      rcases he with rfl | he
      · rfl
      · exact ih _ e he

theorem layerEvents_negotiation (self : TriangleProgram) (env : Environment) :
    ∀ e ∈ layerEvents self env, isNegotiation e = true := by
  intro e he
  unfold layerEvents at he
  split at he
  · simp only [CheckVulkanLayersSupport, List.mem_cons] at he
    rcases he with rfl | rfl | he
    · rfl
    · rfl
    · exact scanRequested_negotiation _ _ _ _ _ e he
  · simp at he

theorem extensionEvents_negotiation (self : TriangleProgram) (env : Environment) :
    ∀ e ∈ extensionEvents self env, isNegotiation e = true := by
  intro e he
  simp only [extensionEvents, GetRequiredExtensions, CheckVulkanExtensionsSupport,
    List.mem_append, List.mem_cons, List.mem_singleton] at he
  rcases he with (rfl | he) | rfl | rfl | he
  · rfl
  · simp at he
  · rfl
  · rfl
  · exact scanRequested_negotiation _ _ _ _ _ e he

theorem MainLoop_loopEvents (w : Option Nat) :
    ∀ (answers : List Bool), ∀ e ∈ (MainLoop w answers).1, isLoopEvent e = true := by
  intro answers
  induction answers with
  | nil => intro e he; simp [MainLoop] at he
  | cons a rest ih =>
    intro e he
    cases a with
    | true =>
      simp only [MainLoop, List.mem_singleton] at he
      subst he
      rfl
    | false =>
      simp only [MainLoop, List.mem_cons] at he
      rcases he with rfl | rfl | he
      · rfl
      · rfl
      · exact ih e he

/-- The four ways `CreateVulkanInstance` can end. -/
theorem CreateVulkanInstance_cases (self : TriangleProgram) (env : Environment) :
    (layersPassed self env = false ∧ self.m_enableValidationLayers = true ∧
      CreateVulkanInstance self env =
        (layerEvents self env, Result.throw "Missing vulkan layers, abort!")) ∨
    (layersPassed self env = true ∧ extensionsPassed self env = false ∧
      CreateVulkanInstance self env =
        (layerEvents self env ++ extensionEvents self env,
          Result.throw "Missing vulkan extensions, abort!")) ∨
    (layersPassed self env = true ∧ extensionsPassed self env = true ∧
      env.vkCreateInstanceResult ≠ VK_SUCCESS ∧
      CreateVulkanInstance self env =
        (layerEvents self env ++ extensionEvents self env ++
          [Event.vkCreateInstance (createInfo self (builtExtensions self env))],
          Result.throw "Failed to create vulkan instance.")) ∨
    (layersPassed self env = true ∧ extensionsPassed self env = true ∧
      env.vkCreateInstanceResult = VK_SUCCESS ∧
      CreateVulkanInstance self env =
        (layerEvents self env ++ extensionEvents self env ++
          [Event.vkCreateInstance (createInfo self (builtExtensions self env))],
          Result.ok env.vkInstance)) := by
  cases hen : self.m_enableValidationLayers <;>
  cases hl : (CheckVulkanLayersSupport env.availableLayers self.m_validationLayers).2 <;>
  cases he : (CheckVulkanExtensionsSupport env.availableExtensions
      (GetRequiredExtensions self env.glfwExtensions).2).2 <;>
  by_cases hr : env.vkCreateInstanceResult = VK_SUCCESS <;>
  simp [CreateVulkanInstance, layersPassed, extensionsPassed, layerEvents, extensionEvents,
    builtExtensions, hen, hl, he, hr]

/-- The five ways `Run` can proceed. -/
theorem Run_cases (self : TriangleProgram) (env : Environment) :
    (layersPassed self env = false ∧ self.m_enableValidationLayers = true ∧
      Run self env =
        ((InitWindow self env).1 ++ layerEvents self env,
          RunStatus.threw "Missing vulkan layers, abort!")) ∨
    (layersPassed self env = true ∧ extensionsPassed self env = false ∧
      Run self env =
        ((InitWindow self env).1 ++ (layerEvents self env ++ extensionEvents self env),
          RunStatus.threw "Missing vulkan extensions, abort!")) ∨
    (layersPassed self env = true ∧ extensionsPassed self env = true ∧
      env.vkCreateInstanceResult ≠ VK_SUCCESS ∧
      Run self env =
        ((InitWindow self env).1 ++ (layerEvents self env ++ extensionEvents self env ++
          [Event.vkCreateInstance (createInfo self (builtExtensions self env))]),
          RunStatus.threw "Failed to create vulkan instance.")) ∨
    (layersPassed self env = true ∧ extensionsPassed self env = true ∧
      env.vkCreateInstanceResult = VK_SUCCESS ∧
      (MainLoop env.glfwCreateWindowResult env.windowShouldClose).2 = true ∧
      Run self env =
        ((InitWindow self env).1 ++ (layerEvents self env ++ extensionEvents self env ++
          [Event.vkCreateInstance (createInfo self (builtExtensions self env))]) ++
          (MainLoop env.glfwCreateWindowResult env.windowShouldClose).1 ++
          Teardown env.glfwCreateWindowResult env.vkInstance,
          RunStatus.returned)) ∨
    (layersPassed self env = true ∧ extensionsPassed self env = true ∧
      env.vkCreateInstanceResult = VK_SUCCESS ∧
      (MainLoop env.glfwCreateWindowResult env.windowShouldClose).2 = false ∧
      Run self env =
        ((InitWindow self env).1 ++ (layerEvents self env ++ extensionEvents self env ++
          [Event.vkCreateInstance (createInfo self (builtExtensions self env))]) ++
          (MainLoop env.glfwCreateWindowResult env.windowShouldClose).1,
          RunStatus.looping)) := by
  rcases CreateVulkanInstance_cases self env with
    ⟨h1, h2, h⟩ | ⟨h1, h2, h⟩ | ⟨h1, h2, h3, h⟩ | ⟨h1, h2, h3, h⟩
  · left
    exact ⟨h1, h2, by simp [Run, InitVulkan, h]⟩
  · right; left
    exact ⟨h1, h2, by simp [Run, InitVulkan, h]⟩
  · right; right; left
    exact ⟨h1, h2, h3, by simp [Run, InitVulkan, h]⟩
  · cases hloop : (MainLoop env.glfwCreateWindowResult env.windowShouldClose).2
    · right; right; right; right
      refine ⟨h1, h2, h3, rfl, ?_⟩
      simp [Run, InitVulkan, h, InitWindow, hloop]
    · right; right; right; left
      refine ⟨h1, h2, h3, rfl, ?_⟩
      simp [Run, InitVulkan, h, InitWindow, hloop]

theorem layersPassed_iff (self : TriangleProgram) (env : Environment)
    (h : self.m_validationLayers.length < SIZE_T_MOD) :
    layersPassed self env = true ↔
      (self.m_enableValidationLayers = true →
        ∀ name ∈ self.m_validationLayers, name ∈ layerNames env.availableLayers) := by
  unfold layersPassed
  rw [← layers_check_iff env.availableLayers self.m_validationLayers h]
  cases self.m_enableValidationLayers <;> simp

theorem builtExtensions_length (self : TriangleProgram) (env : Environment)
    (h : env.glfwExtensions.length < UINT32_MOD) :
    (builtExtensions self env).length < SIZE_T_MOD := by
  have h32 : UINT32_MOD = 4294967296 := by decide
  have h64 : SIZE_T_MOD = 18446744073709551616 := by decide
  rw [h32] at h
  rw [h64]
  unfold builtExtensions GetRequiredExtensions
  dsimp only
  split
  · rw [List.length_append, List.length_singleton]
    omega
  · omega

theorem extensionsPassed_iff (self : TriangleProgram) (env : Environment)
    (h : env.glfwExtensions.length < UINT32_MOD) :
    extensionsPassed self env = true ↔
      ∀ name ∈ builtExtensions self env, name ∈ extensionNames env.availableExtensions := by
  unfold extensionsPassed
  exact extensions_check_iff _ _ (builtExtensions_length self env h)

theorem not_mem_of_negotiation (l : List Event) (h : ∀ e ∈ l, isNegotiation e = true)
    (e : Event) (he : isNegotiation e = false) : e ∉ l := by
  intro hmem
  rw [h e hmem] at he
  exact Bool.noConfusion he

theorem mem_take_of_subset (l : List String) (n : Nat) (P : String → Prop)
    (h : ∀ x ∈ l, P x) : ∀ x ∈ l.take n, P x :=
  fun x hx => h x (List.mem_of_mem_take hx)

theorem filter_nil_of_negotiation (p : Event → Bool)
    (hp : ∀ e, isNegotiation e = true → p e = false) (l : List Event)
    (hl : ∀ e ∈ l, isNegotiation e = true) : l.filter p = [] := by
  rw [List.filter_eq_nil_iff]
  intro e he
  simp [hp e (hl e he)]

theorem filter_nil_of_loop (p : Event → Bool)
    (hp : ∀ e, isLoopEvent e = true → p e = false) (l : List Event)
    (hl : ∀ e ∈ l, isLoopEvent e = true) : l.filter p = [] := by
  rw [List.filter_eq_nil_iff]
  intro e he
  simp [hp e (hl e he)]

theorem MainLoop_left_of_mem (w : Option Nat) :
    ∀ answers : List Bool, true ∈ answers → (MainLoop w answers).2 = true := by
  intro answers
  induction answers with
  | nil => intro h; simp at h
  | cons a rest ih =>
    intro h
    cases a with
    | true => rfl
    | false =>
      simp only [MainLoop]
      exact ih (by simpa using h)

theorem MainLoop_events_of_mem (w : Option Nat) :
    ∀ answers : List Bool, true ∈ answers →
      (MainLoop w answers).1 = loopEvents w (firstTrue answers) := by
  intro answers
  induction answers with
  | nil => intro h; simp at h
  | cons a rest ih =>
    intro h
    cases a with
    | true => simp [MainLoop, loopEvents, firstTrue]
    | false =>
      have ih' := ih (by simpa using h)
      simp only [MainLoop, ih']
      simp [loopEvents, firstTrue, List.replicate_succ]

theorem firstTrue_spec :
    ∀ answers : List Bool, true ∈ answers →
      answers.take (firstTrue answers) = List.replicate (firstTrue answers) false ∧
        answers.get? (firstTrue answers) = some true := by
  intro answers
  induction answers with
  | nil => intro h; simp at h
  | cons a rest ih =>
    intro h
    cases a with
    | true => simp [firstTrue]
    | false =>
      have ih' := ih (by simpa using h)
      unfold firstTrue at ih' ⊢
      simp only [List.takeWhile_cons, Bool.not_false, if_true, List.length_cons,
        List.take_succ_cons, List.replicate_succ, List.get?_cons_succ]
      exact ⟨by rw [ih'.1], ih'.2⟩

theorem loopEvents_polls (w : Option Nat) :
    ∀ k : Nat, ((loopEvents w k).filter isPoll).length = k := by
  intro k
  induction k with
  | zero => simp [loopEvents, isPoll]
  | succ n ih =>
    unfold loopEvents at ih ⊢
    simp only [List.replicate_succ, List.flatten_cons, List.cons_append, List.nil_append,
      List.filter_cons, isPoll, if_true, List.length_cons]
    simpa using ih

/-- What a filter that ignores negotiation and loop events keeps of the
events of `Run`. -/
theorem filter_Run (p : Event → Bool) (hn : ∀ e, isNegotiation e = true → p e = false)
    (hl : ∀ e, isLoopEvent e = true → p e = false) (self : TriangleProgram)
    (env : Environment) :
    (Run self env).1.filter p =
      (InitWindow self env).1.filter p ++
      (if layersPassed self env && extensionsPassed self env then
        [Event.vkCreateInstance (createInfo self (builtExtensions self env))].filter p
       else []) ++
      (if (Run self env).2 = RunStatus.returned then
        (Teardown env.glfwCreateWindowResult env.vkInstance).filter p
       else []) := by
  have h1 := filter_nil_of_negotiation p hn _ (layerEvents_negotiation self env)
  have h2 := filter_nil_of_negotiation p hn _ (extensionEvents_negotiation self env)
  have h3 := filter_nil_of_loop p hl _
    (MainLoop_loopEvents env.glfwCreateWindowResult env.windowShouldClose)
  rcases Run_cases self env with
    ⟨ha, _, h⟩ | ⟨ha, hb, h⟩ | ⟨ha, hb, _, h⟩ | ⟨ha, hb, _, _, h⟩ | ⟨ha, hb, _, _, h⟩
  · rw [h]
    simp only [List.filter_append, h1, ha, List.append_nil, Bool.false_and, if_false,
      reduceCtorEq, Bool.false_eq_true]
  · rw [h]
    simp only [List.filter_append, h1, h2, ha, hb, List.append_nil, Bool.and_false, if_false,
      reduceCtorEq, Bool.false_eq_true]
  · rw [h]
    simp only [List.filter_append, h1, h2, ha, hb, List.append_nil, List.nil_append,
      Bool.and_true, if_true, if_false, reduceCtorEq]
  · rw [h]
    simp only [List.filter_append, h1, h2, h3, ha, hb, List.append_nil, List.nil_append,
      Bool.and_true, if_true]
  · rw [h]
    simp only [List.filter_append, h1, h2, h3, ha, hb, List.append_nil, List.nil_append,
      Bool.and_true, if_true, if_false, reduceCtorEq]

theorem main_of_threw (self : TriangleProgram) (env : Environment) (what : String)
    (h : (Run self env).2 = RunStatus.threw what) :
    main self env =
      ((Run self env).1 ++ [Event.fprintf_stderr "Error during runtime: %s.\n" what],
        some EXIT_FAILURE) := by
  simp only [main, h]

theorem main_of_returned (self : TriangleProgram) (env : Environment)
    (h : (Run self env).2 = RunStatus.returned) :
    main self env = ((Run self env).1, some EXIT_SUCCESS) := by
  simp only [main, h]

theorem main_of_looping (self : TriangleProgram) (env : Environment)
    (h : (Run self env).2 = RunStatus.looping) :
    main self env = ((Run self env).1, none) := by
  simp only [main, h]

/-- A filter that ignores the error line keeps of `main` what it keeps of `Run`. -/
theorem filter_main (p : Event → Bool) (hp : ∀ f a, p (Event.fprintf_stderr f a) = false)
    (self : TriangleProgram) (env : Environment) :
    (main self env).1.filter p = (Run self env).1.filter p := by
  cases h : (Run self env).2 with
  | returned => rw [main_of_returned self env h]
  | threw what =>
    rw [main_of_threw self env what h]
    simp [List.filter_append, hp]
  | looping => rw [main_of_looping self env h]

theorem destroyWindow_quiet :
    (∀ e, isNegotiation e = true → isDestroyWindow e = false) ∧
    (∀ e, isLoopEvent e = true → isDestroyWindow e = false) := by
  constructor <;> intro e <;> cases e <;> simp [isNegotiation, isLoopEvent, isDestroyWindow]

theorem destroyInstance_quiet :
    (∀ e, isNegotiation e = true → isDestroyInstance e = false) ∧
    (∀ e, isLoopEvent e = true → isDestroyInstance e = false) := by
  constructor <;> intro e <;> cases e <;> simp [isNegotiation, isLoopEvent, isDestroyInstance]

theorem createInstance_quiet :
    (∀ e, isNegotiation e = true → isCreateInstance e = false) ∧
    (∀ e, isLoopEvent e = true → isCreateInstance e = false) := by
  constructor <;> intro e <;> cases e <;> simp [isNegotiation, isLoopEvent, isCreateInstance]

theorem terminate_quiet :
    (∀ e, isNegotiation e = true → isTerminate e = false) ∧
    (∀ e, isLoopEvent e = true → isTerminate e = false) := by
  constructor <;> intro e <;> cases e <;> simp [isNegotiation, isLoopEvent, isTerminate]

theorem resourceOp_quiet :
    (∀ e, isNegotiation e = true → isResourceOp e = false) ∧
    (∀ e, isLoopEvent e = true → isResourceOp e = false) := by
  constructor <;> intro e <;> cases e <;> simp [isNegotiation, isLoopEvent, isResourceOp]

theorem filter_destroyWindow_Run (self : TriangleProgram) (env : Environment) :
    (Run self env).1.filter isDestroyWindow =
      if (Run self env).2 = RunStatus.returned then
        [Event.glfwDestroyWindow env.glfwCreateWindowResult]
      else [] := by
  rw [filter_Run isDestroyWindow destroyWindow_quiet.1 destroyWindow_quiet.2]
  by_cases h : (Run self env).2 = RunStatus.returned <;>
  cases layersPassed self env && extensionsPassed self env <;>
  simp [h, InitWindow, Teardown, isDestroyWindow]

theorem filter_terminate_Run (self : TriangleProgram) (env : Environment) :
    (Run self env).1.filter isTerminate =
      if (Run self env).2 = RunStatus.returned then [Event.glfwTerminate] else [] := by
  rw [filter_Run isTerminate terminate_quiet.1 terminate_quiet.2]
  by_cases h : (Run self env).2 = RunStatus.returned <;>
  cases layersPassed self env && extensionsPassed self env <;>
  simp [h, InitWindow, Teardown, isTerminate]

theorem filter_destroyInstance_Run (self : TriangleProgram) (env : Environment) :
    (Run self env).1.filter isDestroyInstance =
      if (Run self env).2 = RunStatus.returned then [Event.vkDestroyInstance env.vkInstance]
      else [] := by
  rw [filter_Run isDestroyInstance destroyInstance_quiet.1 destroyInstance_quiet.2]
  by_cases h : (Run self env).2 = RunStatus.returned <;>
  cases layersPassed self env && extensionsPassed self env <;>
  simp [h, InitWindow, Teardown, isDestroyInstance]

theorem filter_createInstance_Run (self : TriangleProgram) (env : Environment) :
    (Run self env).1.filter isCreateInstance =
      if layersPassed self env && extensionsPassed self env then
        [Event.vkCreateInstance (createInfo self (builtExtensions self env))]
      else [] := by
  rw [filter_Run isCreateInstance createInstance_quiet.1 createInstance_quiet.2]
  by_cases h : (Run self env).2 = RunStatus.returned <;>
  cases layersPassed self env && extensionsPassed self env <;>
  simp [h, InitWindow, Teardown, isCreateInstance]

theorem filter_resourceOp_Run (self : TriangleProgram) (env : Environment) :
    (Run self env).1.filter isResourceOp =
      Event.glfwCreateWindow self.m_windowWidth self.m_windowHeight self.m_windowTitle ::
      ((if layersPassed self env && extensionsPassed self env then
        [Event.vkCreateInstance (createInfo self (builtExtensions self env))]
       else []) ++
      (if (Run self env).2 = RunStatus.returned then
        Teardown env.glfwCreateWindowResult env.vkInstance
       else [])) := by
  rw [filter_Run isResourceOp resourceOp_quiet.1 resourceOp_quiet.2]
  by_cases h : (Run self env).2 = RunStatus.returned <;>
  cases layersPassed self env && extensionsPassed self env <;>
  simp [h, InitWindow, Teardown, isResourceOp]

/-- `Run` returns only after both checks passed and creation succeeded. -/
theorem Run_returned_iff (self : TriangleProgram) (env : Environment) :
    (Run self env).2 = RunStatus.returned ↔
      layersPassed self env = true ∧ extensionsPassed self env = true ∧
        env.vkCreateInstanceResult = VK_SUCCESS ∧
        (MainLoop env.glfwCreateWindowResult env.windowShouldClose).2 = true := by
  rcases Run_cases self env with
    ⟨ha, _, h⟩ | ⟨ha, hb, h⟩ | ⟨ha, hb, hc, h⟩ | ⟨ha, hb, hc, hd, h⟩ | ⟨ha, hb, hc, hd, h⟩
  · rw [h]; simp [ha]
  · rw [h]; simp [hb]
  · rw [h]; simp [hc]
  · rw [h]; simp [ha, hb, hc, hd]
  · rw [h]; simp [hd]

/-- `Run` throws exactly when `CreateVulkanInstance` does, with the same message. -/
theorem Run_threw_iff (self : TriangleProgram) (env : Environment) (what : String) :
    (Run self env).2 = RunStatus.threw what ↔
      (CreateVulkanInstance self env).2 = Result.throw what := by
  cases h : (CreateVulkanInstance self env).2 with
  | throw w => simp [Run, InitVulkan, h]
  | ok v =>
    cases hloop : (MainLoop (InitWindow self env).2 env.windowShouldClose).2 <;>
    simp [Run, InitVulkan, h, hloop]

theorem filter_scanRequested (p : Event → Bool) (hp : ∀ f a, p (Event.printf f a) = false)
    (ff mf : String) (availableSet : List String) :
    ∀ (requested : List String) (c : Nat),
      (scanRequested ff mf availableSet requested c).1.filter p = [] := by
  intro requested
  induction requested with
  | nil => intro c; simp [scanRequested]
  | cons name rest ih =>
    intro c
    by_cases hmem : name ∈ availableSet
    · simp only [scanRequested, if_pos hmem, List.filter_cons, hp]
      simpa using ih c
    · simp only [scanRequested, if_neg hmem, List.filter_cons, hp]
      simpa using ih _

theorem filter_layerQuery_extensionEvents (self : TriangleProgram) (env : Environment) :
    (extensionEvents self env).filter isLayerQuery = [] := by
  simp [extensionEvents, GetRequiredExtensions, CheckVulkanExtensionsSupport, isLayerQuery,
    List.filter_cons, filter_scanRequested isLayerQuery (fun _ _ => rfl)]

theorem layerEvents_disabled (self : TriangleProgram) (env : Environment)
    (h : self.m_enableValidationLayers = false) : layerEvents self env = [] := by
  simp [layerEvents, h]

theorem filter_layerQuery_Run (self : TriangleProgram) (env : Environment)
    (h : self.m_enableValidationLayers = false) :
    (Run self env).1.filter isLayerQuery = [] := by
  have h1 := layerEvents_disabled self env h
  have h2 := filter_layerQuery_extensionEvents self env
  have h3 := filter_nil_of_loop isLayerQuery
    (by intro e; cases e <;> simp [isLoopEvent, isLayerQuery]) _
    (MainLoop_loopEvents env.glfwCreateWindowResult env.windowShouldClose)
  rcases Run_cases self env with
    ⟨_, _, hr⟩ | ⟨_, _, hr⟩ | ⟨_, _, _, hr⟩ | ⟨_, _, _, _, hr⟩ | ⟨_, _, _, _, hr⟩ <;>
  rw [hr] <;>
  simp [List.filter_append, h1, h2, h3, InitWindow, Teardown, isLayerQuery]

theorem Run_events_prefix (self : TriangleProgram) (env : Environment) :
    ∃ rest, (Run self env).1 =
      (InitWindow self env).1 ++ (CreateVulkanInstance self env).1 ++ rest := by
  cases h : (CreateVulkanInstance self env).2 with
  | throw what => exact ⟨[], by simp [Run, InitVulkan, h]⟩
  | ok v =>
    cases hloop : (MainLoop (InitWindow self env).2 env.windowShouldClose).2
    · exact ⟨(MainLoop (InitWindow self env).2 env.windowShouldClose).1, by
        simp [Run, InitVulkan, h, hloop]⟩
    · exact ⟨(MainLoop (InitWindow self env).2 env.windowShouldClose).1 ++
        Teardown (InitWindow self env).2 v, by simp [Run, InitVulkan, h, hloop]⟩

theorem query_mem_Run (self : TriangleProgram) (env : Environment) :
    Event.vkEnumerateInstanceLayerProperties ∈ (Run self env).1 ∨
      Event.vkEnumerateInstanceExtensionProperties ∈ (Run self env).1 := by
  have hext : Event.vkEnumerateInstanceExtensionProperties ∈ extensionEvents self env := by
    simp [extensionEvents, CheckVulkanExtensionsSupport]
  rcases Run_cases self env with
    ⟨_, hen, hr⟩ | ⟨_, _, hr⟩ | ⟨_, _, _, hr⟩ | ⟨_, _, _, _, hr⟩ | ⟨_, _, _, _, hr⟩
  · left
    rw [hr]
    simp [layerEvents, hen, CheckVulkanLayersSupport]
  all_goals
    right
    rw [hr]
    simp [hext]

/-! ## The claims -/

/-- C1: for every requested list `L` that a `std::vector` can hold and every
list of properties reported by the backend, `CheckVulkanLayersSupport` and
`CheckVulkanExtensionsSupport` return true exactly when every name of `L` is
among the reported names, and both return true for the empty list. -/
theorem C1_checks_true_iff_subset (availableLayers : List VkLayerProperties)
    (availableExtensions : List VkExtensionProperties) (L : List String)
    (hL : L.length < SIZE_T_MOD) :
    ((CheckVulkanLayersSupport availableLayers L).2 = true ↔
      ∀ name ∈ L, name ∈ layerNames availableLayers) ∧
    ((CheckVulkanExtensionsSupport availableExtensions L).2 = true ↔
      ∀ name ∈ L, name ∈ extensionNames availableExtensions) ∧
    (CheckVulkanLayersSupport availableLayers []).2 = true ∧
    (CheckVulkanExtensionsSupport availableExtensions []).2 = true :=
  ⟨layers_check_iff availableLayers L hL, extensions_check_iff availableExtensions L hL,
    rfl, rfl⟩

theorem C1_checks_true_iff_subset_witness :
    ["VK_A", "VK_B"].length < SIZE_T_MOD ∧
    (((CheckVulkanLayersSupport [⟨"VK_B"⟩, ⟨"VK_A"⟩] ["VK_A", "VK_B"]).2 = true ↔
      ∀ name ∈ ["VK_A", "VK_B"], name ∈ layerNames [⟨"VK_B"⟩, ⟨"VK_A"⟩]) ∧
    ((CheckVulkanExtensionsSupport [⟨"VK_A"⟩] ["VK_A", "VK_B"]).2 = true ↔
      ∀ name ∈ ["VK_A", "VK_B"], name ∈ extensionNames [⟨"VK_A"⟩]) ∧
    (CheckVulkanLayersSupport [⟨"VK_B"⟩, ⟨"VK_A"⟩] []).2 = true ∧
    (CheckVulkanExtensionsSupport [⟨"VK_A"⟩] []).2 = true) :=
  ⟨by decide,
    C1_checks_true_iff_subset [⟨"VK_B"⟩, ⟨"VK_A"⟩] [⟨"VK_A"⟩] ["VK_A", "VK_B"] (by decide)⟩

/-- C2: in `CreateVulkanInstance`, a `vkCreateInstance` call occurs only when
the layer check (made when validation is enabled) and the extension check both
returned true; then every layer name and every extension name of the
descriptor is among the available names.  When the layer check (validation
enabled) or the extension check returns false, no `vkCreateInstance` call
occurs. -/
theorem C2_create_only_after_checks (self : TriangleProgram) (env : Environment)
    (hsz : WellSized self env) :
    (∀ ci, Event.vkCreateInstance ci ∈ (CreateVulkanInstance self env).1 →
      (self.m_enableValidationLayers = true →
        (CheckVulkanLayersSupport env.availableLayers self.m_validationLayers).2 = true) ∧
      (CheckVulkanExtensionsSupport env.availableExtensions
        (GetRequiredExtensions self env.glfwExtensions).2).2 = true ∧
      (∀ name ∈ ci.ppEnabledLayerNames, name ∈ layerNames env.availableLayers) ∧
      (∀ name ∈ ci.enabledLayerNames, name ∈ layerNames env.availableLayers) ∧
      (∀ name ∈ ci.ppEnabledExtensionNames, name ∈ extensionNames env.availableExtensions) ∧
      (∀ name ∈ ci.enabledExtensionNames,
        name ∈ extensionNames env.availableExtensions)) ∧
    (((self.m_enableValidationLayers = true ∧
        (CheckVulkanLayersSupport env.availableLayers self.m_validationLayers).2 = false) ∨
      (CheckVulkanExtensionsSupport env.availableExtensions
        (GetRequiredExtensions self env.glfwExtensions).2).2 = false) →
      ∀ ci, Event.vkCreateInstance ci ∉ (CreateVulkanInstance self env).1) := by
  have hneg : ∀ ci, Event.vkCreateInstance ci ∉ layerEvents self env ++ extensionEvents self env := by
    intro ci
    refine not_mem_of_negotiation _ ?_ (Event.vkCreateInstance ci) rfl
    intro e he
    rcases List.mem_append.mp he with h | h
    · exact layerEvents_negotiation self env e h
    · exact extensionEvents_negotiation self env e h
  have hnegl : ∀ ci, Event.vkCreateInstance ci ∉ layerEvents self env := fun ci =>
    not_mem_of_negotiation _ (layerEvents_negotiation self env) (Event.vkCreateInstance ci) rfl
  have key : ∀ ci, Event.vkCreateInstance ci ∈ (CreateVulkanInstance self env).1 →
      layersPassed self env = true ∧ extensionsPassed self env = true ∧
        ci = createInfo self (builtExtensions self env) := by
    intro ci hci
    rcases CreateVulkanInstance_cases self env with
      ⟨_, _, h⟩ | ⟨_, _, h⟩ | ⟨h1, h2, _, h⟩ | ⟨h1, h2, _, h⟩
    · rw [h] at hci
      exact absurd hci (hnegl ci)
    · rw [h] at hci
      exact absurd hci (hneg ci)
    · rw [h] at hci
      rcases List.mem_append.mp hci with hc | hc
      · exact absurd hc (hneg ci)
      · exact ⟨h1, h2, by simpa using hc⟩
    · rw [h] at hci
      rcases List.mem_append.mp hci with hc | hc
      · exact absurd hc (hneg ci)
      · exact ⟨h1, h2, by simpa using hc⟩
  constructor
  · intro ci hci
    obtain ⟨h1, h2, rfl⟩ := key ci hci
    have hlay := (layersPassed_iff self env hsz.1).mp h1
    have hext := (extensionsPassed_iff self env hsz.2).mp h2
    have hL : ∀ name ∈ (createInfo self (builtExtensions self env)).ppEnabledLayerNames,
        name ∈ layerNames env.availableLayers := by
      intro name hname
      simp only [createInfo] at hname
      split at hname
      · next hen => exact hlay hen name hname
      · simp at hname
    have hE : ∀ name ∈ (createInfo self (builtExtensions self env)).ppEnabledExtensionNames,
        name ∈ extensionNames env.availableExtensions := hext
    refine ⟨?_, h2, hL, mem_take_of_subset _ _ _ hL, hE, mem_take_of_subset _ _ _ hE⟩
    intro hen
    simpa [layersPassed, hen] using h1
  · intro hfail ci hci
    obtain ⟨h1, h2, _⟩ := key ci hci
    rcases hfail with ⟨hen, hl⟩ | he
    · simp [layersPassed, hen, hl] at h1
    · simp [extensionsPassed, builtExtensions, he] at h2

theorem C2_create_only_after_checks_witness :
    WellSized {} sampleEnv ∧
    ((∀ ci, Event.vkCreateInstance ci ∈ (CreateVulkanInstance {} sampleEnv).1 →
      (({} : TriangleProgram).m_enableValidationLayers = true →
        (CheckVulkanLayersSupport sampleEnv.availableLayers
          ({} : TriangleProgram).m_validationLayers).2 = true) ∧
      (CheckVulkanExtensionsSupport sampleEnv.availableExtensions
        (GetRequiredExtensions {} sampleEnv.glfwExtensions).2).2 = true ∧
      (∀ name ∈ ci.ppEnabledLayerNames, name ∈ layerNames sampleEnv.availableLayers) ∧
      (∀ name ∈ ci.enabledLayerNames, name ∈ layerNames sampleEnv.availableLayers) ∧
      (∀ name ∈ ci.ppEnabledExtensionNames,
        name ∈ extensionNames sampleEnv.availableExtensions) ∧
      (∀ name ∈ ci.enabledExtensionNames,
        name ∈ extensionNames sampleEnv.availableExtensions)) ∧
    (((({} : TriangleProgram).m_enableValidationLayers = true ∧
        (CheckVulkanLayersSupport sampleEnv.availableLayers
          ({} : TriangleProgram).m_validationLayers).2 = false) ∨
      (CheckVulkanExtensionsSupport sampleEnv.availableExtensions
        (GetRequiredExtensions {} sampleEnv.glfwExtensions).2).2 = false) →
      ∀ ci, Event.vkCreateInstance ci ∉ (CreateVulkanInstance {} sampleEnv).1)) :=
  ⟨by decide, C2_create_only_after_checks {} sampleEnv (by decide)⟩

/-- C3 (as the spec states it, refuted): with a name requested twice and
absent from the backend, `CheckVulkanLayersSupport` prints the missing line
for it twice, so the reported names contain a repetition. -/
theorem C3_counterexample_repeated_name :
    printedWith missingLayerFormat
        (CheckVulkanLayersSupport [] ["VK_LAYER_X", "VK_LAYER_X"]).1 =
      ["VK_LAYER_X", "VK_LAYER_X"] ∧
    ¬ (printedWith missingLayerFormat
        (CheckVulkanLayersSupport [] ["VK_LAYER_X", "VK_LAYER_X"]).1).Nodup := by
  decide

/-- C3 (amended): the names a capability check prints as missing are the
requested names absent from the available names, in request order, one line
per occurrence in the request: each absent name is reported (the scan goes on
after a missing name), no available name is reported, and when the request has
no repeated name no name is reported twice. -/
theorem C3_missing_reported_exactly (availableLayers : List VkLayerProperties)
    (availableExtensions : List VkExtensionProperties) (L : List String) :
    printedWith missingLayerFormat (CheckVulkanLayersSupport availableLayers L).1 =
      L.filter (fun name => decide (name ∉ layerNames availableLayers)) ∧
    printedWith missingExtensionFormat
        (CheckVulkanExtensionsSupport availableExtensions L).1 =
      L.filter (fun name => decide (name ∉ extensionNames availableExtensions)) ∧
    (∀ name, name ∈ printedWith missingLayerFormat
        (CheckVulkanLayersSupport availableLayers L).1 ↔
      name ∈ L ∧ name ∉ layerNames availableLayers) ∧
    (∀ name, name ∈ printedWith missingExtensionFormat
        (CheckVulkanExtensionsSupport availableExtensions L).1 ↔
      name ∈ L ∧ name ∉ extensionNames availableExtensions) ∧
    (L.Nodup →
      (printedWith missingLayerFormat (CheckVulkanLayersSupport availableLayers L).1).Nodup ∧
      (printedWith missingExtensionFormat
        (CheckVulkanExtensionsSupport availableExtensions L).1).Nodup) := by
  have h1 := layers_check_printed availableLayers L
  have h2 := extensions_check_printed availableExtensions L
  unfold missingFrom at h1 h2
  refine ⟨h1, h2, ?_, ?_, ?_⟩
  · intro name
    rw [h1, List.mem_filter]
    simp
  · intro name
    rw [h2, List.mem_filter]
    simp
  · intro hnd
    rw [h1, h2]
    exact ⟨hnd.filter _, hnd.filter _⟩

theorem C3_missing_reported_exactly_witness :
    (["VK_A", "VK_B", "VK_C"] : List String).Nodup ∧
    (printedWith missingLayerFormat
        (CheckVulkanLayersSupport [⟨"VK_B"⟩] ["VK_A", "VK_B", "VK_C"]).1).Nodup ∧
    printedWith missingLayerFormat
        (CheckVulkanLayersSupport [⟨"VK_B"⟩] ["VK_A", "VK_B", "VK_C"]).1 =
      ["VK_A", "VK_B", "VK_C"].filter (fun name => decide (name ∉ layerNames [⟨"VK_B"⟩])) :=
  ⟨by decide,
    ((C3_missing_reported_exactly [⟨"VK_B"⟩] [] ["VK_A", "VK_B", "VK_C"]).2.2.2.2
      (by decide)).1,
    (C3_missing_reported_exactly [⟨"VK_B"⟩] [] ["VK_A", "VK_B", "VK_C"]).1⟩

/-- C4: `GetRequiredExtensions` returns the list `W` reported by the windowing
service unchanged when validation is disabled, and `W` followed by the single
debug-utilities name (length `|W| + 1`) when validation is enabled. -/
theorem C4_required_extensions (self : TriangleProgram) (W : List String) :
    (self.m_enableValidationLayers = false → (GetRequiredExtensions self W).2 = W) ∧
    (self.m_enableValidationLayers = true →
      (GetRequiredExtensions self W).2 = W ++ [VK_EXT_DEBUG_UTILS_EXTENSION_NAME] ∧
      (GetRequiredExtensions self W).2.length = W.length + 1) := by
  constructor
  · intro h
    simp [GetRequiredExtensions, h]
  · intro h
    simp [GetRequiredExtensions, h]

theorem C4_required_extensions_witness :
    (GetRequiredExtensions { m_enableValidationLayers := false }
        ["VK_KHR_surface", "VK_KHR_xcb_surface"]).2 =
      ["VK_KHR_surface", "VK_KHR_xcb_surface"] ∧
    (GetRequiredExtensions {} ["VK_KHR_surface", "VK_KHR_xcb_surface"]).2 =
      ["VK_KHR_surface", "VK_KHR_xcb_surface", "VK_EXT_debug_utils"] :=
  ⟨(C4_required_extensions { m_enableValidationLayers := false }
      ["VK_KHR_surface", "VK_KHR_xcb_surface"]).1 rfl,
    ((C4_required_extensions {} ["VK_KHR_surface", "VK_KHR_xcb_surface"]).2 rfl).1⟩

/-- C5 (as the spec states it, refuted): the window is opened, the backend
reports no layer, `Run` throws, and `main` exits with `EXIT_FAILURE` without a
`glfwDestroyWindow` or `glfwTerminate` call having been made. -/
theorem C5_counterexample_window_left_open :
    (InitWindow {} envMissingLayer).2 = some 7 ∧
    (Run {} envMissingLayer).2 = RunStatus.threw "Missing vulkan layers, abort!" ∧
    (main {} envMissingLayer).1.filter isDestroyWindow = [] ∧
    (main {} envMissingLayer).1.filter isTerminate = [] ∧
    (main {} envMissingLayer).2 = some EXIT_FAILURE := by
  decide

/-- C5 (amended): when a stage after `InitWindow` fails (`Run` throws), the
exception leaves `Run` without `Teardown`: `main` exits with `EXIT_FAILURE`
and no `glfwDestroyWindow` and no `glfwTerminate` call is made.  The window is
destroyed exactly in the runs in which `Run` returns normally, and then once,
with the handle stored by `InitWindow`. -/
theorem C5_failure_skips_teardown (self : TriangleProgram) (env : Environment) :
    (∀ what, (Run self env).2 = RunStatus.threw what →
      (main self env).1.filter isDestroyWindow = [] ∧
      (main self env).1.filter isTerminate = [] ∧
      (main self env).2 = some EXIT_FAILURE) ∧
    ((main self env).1.filter isDestroyWindow ≠ [] ↔
      (Run self env).2 = RunStatus.returned) ∧
    ((Run self env).2 = RunStatus.returned →
      (main self env).1.filter isDestroyWindow =
        [Event.glfwDestroyWindow (InitWindow self env).2]) := by
  have hm1 := filter_main isDestroyWindow (fun _ _ => rfl) self env
  have hm2 := filter_main isTerminate (fun _ _ => rfl) self env
  rw [filter_destroyWindow_Run] at hm1
  rw [filter_terminate_Run] at hm2
  refine ⟨?_, ?_, ?_⟩
  · intro what h
    rw [hm1, hm2, main_of_threw self env what h]
    simp [h]
  · rw [hm1]
    by_cases h : (Run self env).2 = RunStatus.returned <;> simp [h]
  · intro h
    rw [hm1]
    simp [h, InitWindow]

theorem C5_failure_skips_teardown_witness :
    (Run {} envCreateFails).2 = RunStatus.threw "Failed to create vulkan instance." ∧
    ((main {} envCreateFails).1.filter isDestroyWindow = [] ∧
      (main {} envCreateFails).1.filter isTerminate = [] ∧
      (main {} envCreateFails).2 = some EXIT_FAILURE) :=
  ⟨by decide,
    (C5_failure_skips_teardown {} envCreateFails).1 "Failed to create vulkan instance."
      (by decide)⟩

/-- C6: when every desired layer (validation enabled) and every built
extension is available, `vkCreateInstance` returns `VK_SUCCESS` and some close
answer is true, `Run` returns after performing, in this order, the window
stage, the negotiation with the instance creation, the event loop up to the
first true close answer, `vkDestroyInstance`, `glfwDestroyWindow` and
`glfwTerminate`; each resource operation occurs exactly once, the instance is
destroyed before the window, and `main` returns 0. -/
theorem C6_successful_run (self : TriangleProgram) (env : Environment)
    (hsz : WellSized self env)
    (hl : self.m_enableValidationLayers = true →
      ∀ name ∈ self.m_validationLayers, name ∈ layerNames env.availableLayers)
    (he : ∀ name ∈ (GetRequiredExtensions self env.glfwExtensions).2,
      name ∈ extensionNames env.availableExtensions)
    (hc : env.vkCreateInstanceResult = VK_SUCCESS)
    (ht : true ∈ env.windowShouldClose) :
    (Run self env).2 = RunStatus.returned ∧
    main self env = ((Run self env).1, some 0) ∧
    (Run self env).1 =
      (InitWindow self env).1 ++
      (layerEvents self env ++ extensionEvents self env ++
        [Event.vkCreateInstance
          (createInfo self (GetRequiredExtensions self env.glfwExtensions).2)]) ++
      loopEvents (InitWindow self env).2 (firstTrue env.windowShouldClose) ++
      [Event.vkDestroyInstance env.vkInstance,
       Event.glfwDestroyWindow (InitWindow self env).2,
       Event.glfwTerminate] ∧
    (Run self env).1.filter isResourceOp =
      [Event.glfwCreateWindow self.m_windowWidth self.m_windowHeight self.m_windowTitle,
       Event.vkCreateInstance
         (createInfo self (GetRequiredExtensions self env.glfwExtensions).2),
       Event.vkDestroyInstance env.vkInstance,
       Event.glfwDestroyWindow (InitWindow self env).2,
       Event.glfwTerminate] := by
  have h1 : layersPassed self env = true := (layersPassed_iff self env hsz.1).mpr hl
  have h2 : extensionsPassed self env = true := (extensionsPassed_iff self env hsz.2).mpr he
  have h3 := MainLoop_left_of_mem env.glfwCreateWindowResult env.windowShouldClose ht
  have h4 := MainLoop_events_of_mem env.glfwCreateWindowResult env.windowShouldClose ht
  have hret : (Run self env).2 = RunStatus.returned :=
    (Run_returned_iff self env).mpr ⟨h1, h2, hc, h3⟩
  refine ⟨hret, ?_, ?_, ?_⟩
  · rw [main_of_returned self env hret]
    rfl
  · rcases Run_cases self env with
      ⟨_, _, h⟩ | ⟨_, _, h⟩ | ⟨_, _, _, h⟩ | ⟨_, _, _, _, h⟩ | ⟨_, _, _, _, h⟩
    · rw [h] at hret; exact absurd hret (by simp)
    · rw [h] at hret; exact absurd hret (by simp)
    · rw [h] at hret; exact absurd hret (by simp)
    · rw [h, h4]
      rfl
    · rw [h] at hret; exact absurd hret (by simp)
  · rw [filter_resourceOp_Run, hret, h1, h2]
    rfl

theorem C6_successful_run_witness :
    WellSized {} sampleEnv ∧
    (Run {} sampleEnv).2 = RunStatus.returned ∧
    main {} sampleEnv = ((Run {} sampleEnv).1, some 0) ∧
    (Run {} sampleEnv).1.filter isResourceOp =
      [Event.glfwCreateWindow 800 600 "Triangle",
       Event.vkCreateInstance
         (createInfo {} (GetRequiredExtensions {} sampleEnv.glfwExtensions).2),
       Event.vkDestroyInstance 42,
       Event.glfwDestroyWindow (some 7),
       Event.glfwTerminate] :=
  ⟨by decide,
    (C6_successful_run {} sampleEnv (by decide) (by decide) (by decide) (by decide)
      (by decide)).1,
    (C6_successful_run {} sampleEnv (by decide) (by decide) (by decide) (by decide)
      (by decide)).2.1,
    (C6_successful_run {} sampleEnv (by decide) (by decide) (by decide) (by decide)
      (by decide)).2.2.2⟩

/-- C9: in every run `vkDestroyInstance` is called at most once; when it is
called, `vkCreateInstance` returned `VK_SUCCESS` and the events of the process
are a prefix that contains the `vkCreateInstance` call and no destroy,
followed by the three calls of `Teardown`.  It is not called when `Run`
throws (a failed check or a failed creation), and when `Run` returns the
instance is destroyed (once, the created handle) and was created (once, with
success), so it is destroyed if and only if it was successfully created. -/
theorem C9_destroy_only_after_create (self : TriangleProgram) (env : Environment) :
    ((main self env).1.filter isDestroyInstance).length ≤ 1 ∧
    ((main self env).1.filter isDestroyInstance = [] ∨
      (env.vkCreateInstanceResult = VK_SUCCESS ∧
        ∃ pre ci, (main self env).1 =
            pre ++ Teardown (InitWindow self env).2 env.vkInstance ∧
          Event.vkCreateInstance ci ∈ pre ∧ pre.filter isDestroyInstance = [])) ∧
    (∀ what, (CreateVulkanInstance self env).2 = Result.throw what →
      (Run self env).2 = RunStatus.threw what ∧
      (main self env).1.filter isDestroyInstance = []) ∧
    ((Run self env).2 = RunStatus.returned →
      (main self env).1.filter isDestroyInstance =
        [Event.vkDestroyInstance env.vkInstance] ∧
      (main self env).1.filter isCreateInstance =
        [Event.vkCreateInstance
          (createInfo self (GetRequiredExtensions self env.glfwExtensions).2)] ∧
      env.vkCreateInstanceResult = VK_SUCCESS ∧
      ((main self env).1.filter isDestroyInstance ≠ [] ↔
        ((main self env).1.filter isCreateInstance ≠ [] ∧
          env.vkCreateInstanceResult = VK_SUCCESS))) := by
  have hm := filter_main isDestroyInstance (fun _ _ => rfl) self env
  have hmc := filter_main isCreateInstance (fun _ _ => rfl) self env
  rw [filter_destroyInstance_Run] at hm
  rw [filter_createInstance_Run] at hmc
  have hle := filter_nil_of_negotiation isDestroyInstance destroyInstance_quiet.1 _
    (layerEvents_negotiation self env)
  have hee := filter_nil_of_negotiation isDestroyInstance destroyInstance_quiet.1 _
    (extensionEvents_negotiation self env)
  have hloop := filter_nil_of_loop isDestroyInstance destroyInstance_quiet.2 _
    (MainLoop_loopEvents env.glfwCreateWindowResult env.windowShouldClose)
  refine ⟨?_, ?_, ?_, ?_⟩
  · rw [hm]
    split <;> simp
  · by_cases hret : (Run self env).2 = RunStatus.returned
    · right
      have hret' := hret
      rw [Run_returned_iff] at hret'
      refine ⟨hret'.2.2.1, ?_⟩
      rcases Run_cases self env with
        ⟨_, _, h⟩ | ⟨_, _, h⟩ | ⟨_, _, _, h⟩ | ⟨_, _, _, _, h⟩ | ⟨_, _, _, _, h⟩
      · rw [h] at hret; exact absurd hret (by simp)
      · rw [h] at hret; exact absurd hret (by simp)
      · rw [h] at hret; exact absurd hret (by simp)
      · refine ⟨(InitWindow self env).1 ++
            (layerEvents self env ++ extensionEvents self env ++
              [Event.vkCreateInstance (createInfo self (builtExtensions self env))]) ++
            (MainLoop env.glfwCreateWindowResult env.windowShouldClose).1,
          createInfo self (builtExtensions self env), ?_, ?_, ?_⟩
        · rw [main_of_returned self env hret, h]
          rfl
        · simp
        · simp [List.filter_append, hle, hee, hloop, InitWindow, isDestroyInstance]
      · rw [h] at hret; exact absurd hret (by simp)
    · left
      rw [hm, if_neg hret]
  · intro what h
    have hthrew := (Run_threw_iff self env what).mpr h
    refine ⟨hthrew, ?_⟩
    rw [hm, hthrew]
    simp
  · intro hret
    have hret' := hret
    rw [Run_returned_iff] at hret'
    rw [hm, hmc, hret, hret'.1, hret'.2.1]
    refine ⟨by simp, by simp [builtExtensions], hret'.2.2.1, ?_⟩
    simp [hret'.2.2.1]

theorem C9_destroy_only_after_create_witness :
    (CreateVulkanInstance {} envCreateFails).2 =
      Result.throw "Failed to create vulkan instance." ∧
    ((Run {} envCreateFails).2 = RunStatus.threw "Failed to create vulkan instance." ∧
      (main {} envCreateFails).1.filter isDestroyInstance = []) ∧
    (Run {} sampleEnv).2 = RunStatus.returned ∧
    (main {} sampleEnv).1.filter isDestroyInstance = [Event.vkDestroyInstance 42] :=
  ⟨by decide,
    (C9_destroy_only_after_create {} envCreateFails).2.2.1
      "Failed to create vulkan instance." (by decide),
    by decide,
    ((C9_destroy_only_after_create {} sampleEnv).2.2.2 (by decide)).1⟩

/-- C7: with validation enabled and some desired layer absent, `Run` throws
the layers error whatever the extensions; otherwise, when some built extension
is absent, it throws the extensions error; otherwise, when `vkCreateInstance`
does not return `VK_SUCCESS`, it throws the instance-creation error.  In each
case `main` prints that message and returns `EXIT_FAILURE`, which is not 0,
and the three messages differ.  With validation disabled no layer query is
made, the layers error is never thrown, and the run does not depend on the
layer list nor on the available layers. -/
theorem C7_failure_classification (self : TriangleProgram) (env : Environment)
    (hsz : WellSized self env) :
    (self.m_enableValidationLayers = true →
      (¬ ∀ name ∈ self.m_validationLayers, name ∈ layerNames env.availableLayers) →
      (Run self env).2 = RunStatus.threw "Missing vulkan layers, abort!" ∧
      main self env =
        ((Run self env).1 ++ [Event.fprintf_stderr "Error during runtime: %s.\n"
          "Missing vulkan layers, abort!"], some EXIT_FAILURE)) ∧
    ((self.m_enableValidationLayers = true →
        ∀ name ∈ self.m_validationLayers, name ∈ layerNames env.availableLayers) →
      (¬ ∀ name ∈ (GetRequiredExtensions self env.glfwExtensions).2,
        name ∈ extensionNames env.availableExtensions) →
      (Run self env).2 = RunStatus.threw "Missing vulkan extensions, abort!" ∧
      main self env =
        ((Run self env).1 ++ [Event.fprintf_stderr "Error during runtime: %s.\n"
          "Missing vulkan extensions, abort!"], some EXIT_FAILURE)) ∧
    ((self.m_enableValidationLayers = true →
        ∀ name ∈ self.m_validationLayers, name ∈ layerNames env.availableLayers) →
      (∀ name ∈ (GetRequiredExtensions self env.glfwExtensions).2,
        name ∈ extensionNames env.availableExtensions) →
      env.vkCreateInstanceResult ≠ VK_SUCCESS →
      (Run self env).2 = RunStatus.threw "Failed to create vulkan instance." ∧
      main self env =
        ((Run self env).1 ++ [Event.fprintf_stderr "Error during runtime: %s.\n"
          "Failed to create vulkan instance."], some EXIT_FAILURE)) ∧
    EXIT_FAILURE ≠ 0 ∧
    "Missing vulkan layers, abort!" ≠ "Missing vulkan extensions, abort!" ∧
    "Missing vulkan layers, abort!" ≠ "Failed to create vulkan instance." ∧
    "Missing vulkan extensions, abort!" ≠ "Failed to create vulkan instance." ∧
    (self.m_enableValidationLayers = false →
      (main self env).1.filter isLayerQuery = [] ∧
      (Run self env).2 ≠ RunStatus.threw "Missing vulkan layers, abort!" ∧
      ∀ (layers : List String) (available : List VkLayerProperties),
        Run { self with m_validationLayers := layers }
          { env with availableLayers := available } = Run self env) := by
  have hL := layersPassed_iff self env hsz.1
  have hE := extensionsPassed_iff self env hsz.2
  refine ⟨?_, ?_, ?_, by decide, by decide, by decide, by decide, ?_⟩
  · intro hen hmiss
    have hnot : ¬ layersPassed self env = true := fun hp => hmiss (hL.mp hp hen)
    rcases Run_cases self env with
      ⟨_, _, hr⟩ | ⟨ha, _, _⟩ | ⟨ha, _, _, _⟩ | ⟨ha, _, _, _, _⟩ | ⟨ha, _, _, _, _⟩
    · have hs : (Run self env).2 = RunStatus.threw "Missing vulkan layers, abort!" := by
        rw [hr]
      exact ⟨hs, main_of_threw self env _ hs⟩
    all_goals exact absurd ha hnot
  · intro hlay hmiss
    have hp : layersPassed self env = true := hL.mpr hlay
    have hnot : ¬ extensionsPassed self env = true := fun h => hmiss (hE.mp h)
    rcases Run_cases self env with
      ⟨ha, _, _⟩ | ⟨_, _, hr⟩ | ⟨_, hb, _, _⟩ | ⟨_, hb, _, _, _⟩ | ⟨_, hb, _, _, _⟩
    · rw [hp] at ha
      exact absurd ha (by simp)
    · have hs : (Run self env).2 = RunStatus.threw "Missing vulkan extensions, abort!" := by
        rw [hr]
      exact ⟨hs, main_of_threw self env _ hs⟩
    all_goals exact absurd hb hnot
  · intro hlay hext hres
    have hp : layersPassed self env = true := hL.mpr hlay
    have hq : extensionsPassed self env = true := hE.mpr hext
    rcases Run_cases self env with
      ⟨ha, _, _⟩ | ⟨_, hb, _⟩ | ⟨_, _, _, hr⟩ | ⟨_, _, hc, _, _⟩ | ⟨_, _, hc, _, _⟩
    · rw [hp] at ha
      exact absurd ha (by simp)
    · rw [hq] at hb
      exact absurd hb (by simp)
    · have hs : (Run self env).2 = RunStatus.threw "Failed to create vulkan instance." := by
        rw [hr]
      exact ⟨hs, main_of_threw self env _ hs⟩
    all_goals exact absurd hc hres
  · intro hen
    refine ⟨?_, ?_, ?_⟩
    · rw [filter_main isLayerQuery (fun _ _ => rfl), filter_layerQuery_Run self env hen]
    · rcases Run_cases self env with
        ⟨_, hen', _⟩ | ⟨_, _, hr⟩ | ⟨_, _, _, hr⟩ | ⟨_, _, _, _, hr⟩ | ⟨_, _, _, _, hr⟩
      · rw [hen] at hen'
        exact absurd hen' (by simp)
      all_goals
        rw [hr]
        simp
    · intro layers available
      simp [Run, InitVulkan, CreateVulkanInstance, InitWindow, GetRequiredExtensions,
        createInfo, hen]

theorem C7_failure_classification_witness :
    WellSized {} envMissingLayer ∧
    ((Run {} envMissingLayer).2 = RunStatus.threw "Missing vulkan layers, abort!" ∧
      main {} envMissingLayer =
        ((Run {} envMissingLayer).1 ++ [Event.fprintf_stderr "Error during runtime: %s.\n"
          "Missing vulkan layers, abort!"], some EXIT_FAILURE)) ∧
    ((Run {} envCreateFails).2 = RunStatus.threw "Failed to create vulkan instance." ∧
      main {} envCreateFails =
        ((Run {} envCreateFails).1 ++ [Event.fprintf_stderr "Error during runtime: %s.\n"
          "Failed to create vulkan instance."], some EXIT_FAILURE)) :=
  ⟨by decide,
    (C7_failure_classification {} envMissingLayer (by decide)).1 (by decide) (by decide),
    (C7_failure_classification {} envCreateFails (by decide)).2.2.1 (by decide) (by decide)
      (by decide)⟩

/-- C8 (as the spec states it, refuted): `glfwInit` fails and
`glfwCreateWindow` returns null, yet `Run` does not throw: the four backend
capability queries and the `vkCreateInstance` call are made, and the event
loop is entered. -/
theorem C8_counterexample_no_platform_error :
    envNoWindow.glfwInitResult = GLFW_FALSE ∧
    (InitWindow {} envNoWindow).2 = none ∧
    ((Run {} envNoWindow).1.filter isCapabilityQuery).length = 4 ∧
    ((Run {} envNoWindow).1.filter isCreateInstance).length = 1 ∧
    (Run {} envNoWindow).2 = RunStatus.looping ∧
    (main {} envNoWindow).2 = none := by
  decide

/-- C8 (amended): whatever `glfwInit` and `glfwCreateWindow` return, in
particular when the subsystem fails to start or the window pointer is null,
`InitWindow` makes its four calls, stores the pointer and raises no error, and
the run does not stop there: the events of `Run` are those of `InitWindow`
followed by all those of `CreateVulkanInstance`, a backend capability query
among them, and `vkCreateInstance` is called when the layer check (validation
enabled) and the extension check return true.  `Run` throws exactly what
`CreateVulkanInstance` throws, one of its three errors, so no platform error
exists. -/
theorem C8_window_failure_not_detected (self : TriangleProgram) (env : Environment) :
    InitWindow self env =
      ([Event.glfwInit,
        Event.glfwWindowHint GLFW_CLIENT_API GLFW_NO_API,
        Event.glfwWindowHint GLFW_RESIZABLE GLFW_FALSE,
        Event.glfwCreateWindow self.m_windowWidth self.m_windowHeight self.m_windowTitle],
       env.glfwCreateWindowResult) ∧
    (∃ rest, (Run self env).1 =
      (InitWindow self env).1 ++ (CreateVulkanInstance self env).1 ++ rest) ∧
    (Event.vkEnumerateInstanceLayerProperties ∈ (Run self env).1 ∨
      Event.vkEnumerateInstanceExtensionProperties ∈ (Run self env).1) ∧
    (((self.m_enableValidationLayers = true →
        (CheckVulkanLayersSupport env.availableLayers self.m_validationLayers).2 = true) ∧
      (CheckVulkanExtensionsSupport env.availableExtensions
        (GetRequiredExtensions self env.glfwExtensions).2).2 = true) →
      (Run self env).1.filter isCreateInstance =
        [Event.vkCreateInstance
          (createInfo self (GetRequiredExtensions self env.glfwExtensions).2)]) ∧
    (∀ what, (Run self env).2 = RunStatus.threw what ↔
      (CreateVulkanInstance self env).2 = Result.throw what) ∧
    (∀ what, (Run self env).2 = RunStatus.threw what →
      what = "Missing vulkan layers, abort!" ∨ what = "Missing vulkan extensions, abort!" ∨
        what = "Failed to create vulkan instance.") := by
  refine ⟨rfl, Run_events_prefix self env, query_mem_Run self env, ?_,
    Run_threw_iff self env, ?_⟩
  · rintro ⟨hlay, hext⟩
    have h1 : layersPassed self env = true := by
      unfold layersPassed
      cases hen : self.m_enableValidationLayers
      · rfl
      · simpa using hlay hen
    have h2 : extensionsPassed self env = true := hext
    rw [filter_createInstance_Run, h1, h2]
    rfl
  · intro what h
    rcases Run_cases self env with
      ⟨_, _, hr⟩ | ⟨_, _, hr⟩ | ⟨_, _, _, hr⟩ | ⟨_, _, _, _, hr⟩ | ⟨_, _, _, _, hr⟩ <;>
    rw [hr] at h <;>
    simp at h
    · exact Or.inl h.symm
    · exact Or.inr (Or.inl h.symm)
    · exact Or.inr (Or.inr h.symm)

theorem C8_window_failure_not_detected_witness :
    (envNoWindow.glfwInitResult = GLFW_FALSE ∧ envNoWindow.glfwCreateWindowResult = none) ∧
    ((({} : TriangleProgram).m_enableValidationLayers = true →
        (CheckVulkanLayersSupport envNoWindow.availableLayers
          ({} : TriangleProgram).m_validationLayers).2 = true) ∧
      (CheckVulkanExtensionsSupport envNoWindow.availableExtensions
        (GetRequiredExtensions {} envNoWindow.glfwExtensions).2).2 = true) ∧
    (Run {} envNoWindow).1.filter isCreateInstance =
      [Event.vkCreateInstance
        (createInfo {} (GetRequiredExtensions {} envNoWindow.glfwExtensions).2)] ∧
    (Event.vkEnumerateInstanceLayerProperties ∈ (Run {} envNoWindow).1 ∨
      Event.vkEnumerateInstanceExtensionProperties ∈ (Run {} envNoWindow).1) :=
  ⟨by decide, by decide,
    (C8_window_failure_not_detected {} envNoWindow).2.2.2.1 (by decide),
    (C8_window_failure_not_detected {} envNoWindow).2.2.1⟩

/-- C10: when some close answer is true, `MainLoop` is left at the first true
answer: its events are, for each earlier (false) answer, the close check
followed by one `glfwPollEvents`, and then the check that returns true, which
is the last event, so every poll is followed by a close check and nothing
happens after the close signal is seen.  The number of polls is the number of
answers before the first true one; it is zero when the window is already
closed on entry, and `Run` then goes from that single check to `Teardown`. -/
theorem C10_main_loop (w : Option Nat) (answers : List Bool) (h : true ∈ answers) :
    MainLoop w answers = (loopEvents w (firstTrue answers), true) ∧
    answers.take (firstTrue answers) = List.replicate (firstTrue answers) false ∧
    answers.get? (firstTrue answers) = some true ∧
    ((MainLoop w answers).1.filter isPoll).length = firstTrue answers ∧
    (MainLoop w answers).1.getLast? = some (Event.glfwWindowShouldClose w true) ∧
    (∀ rest, MainLoop w (true :: rest) = ([Event.glfwWindowShouldClose w true], true)) ∧
    (∀ (self : TriangleProgram) (env : Environment) (rest : List Bool) (created : Nat),
      env.windowShouldClose = true :: rest →
      (CreateVulkanInstance self env).2 = Result.ok created →
      Run self env =
        ((InitWindow self env).1 ++ (CreateVulkanInstance self env).1 ++
          [Event.glfwWindowShouldClose (InitWindow self env).2 true] ++
          Teardown (InitWindow self env).2 created, RunStatus.returned)) := by
  have hev := MainLoop_events_of_mem w answers h
  have hfl := MainLoop_left_of_mem w answers h
  have hft := firstTrue_spec answers h
  refine ⟨?_, hft.1, hft.2, ?_, ?_, ?_, ?_⟩
  · rw [← hev, ← hfl]
  · rw [hev]
    exact loopEvents_polls w _
  · rw [hev]
    simp [loopEvents]
  · intro rest
    rfl
  · intro self env rest created hclose hok
    simp [Run, InitVulkan, hok, hclose, MainLoop]

theorem C10_main_loop_witness :
    true ∈ [false, false, true] ∧
    MainLoop (some 7) [false, false, true] =
      (loopEvents (some 7) (firstTrue [false, false, true]), true) ∧
    ((MainLoop (some 7) [false, false, true]).1.filter isPoll).length =
      firstTrue [false, false, true] :=
  ⟨by decide,
    (C10_main_loop (some 7) [false, false, true] (by decide)).1,
    (C10_main_loop (some 7) [false, false, true] (by decide)).2.2.2.1⟩

end Triangle
